import Mathlib

/-!
# Verification of the go-boilerplate configuration package

A shallow embedding, in Lean 4, of the repository's configuration data
model (`internal/config/model.go`), its environment loader
(`LoadFromEnv`) and its validator (`Validate`), together with theorems
settling the specification's claims about them.

Modelling conventions:
* Go `string` is Lean `String`; `type Environment string` is an
  abbreviation for `String`.
* Go `time.Duration` (an `int64` count of nanoseconds) is Lean `Int`;
  the durations appearing here are tiny, so no overflow wrapping arises.
* Go `uint` / `int` fields are `Nat` / `Int`.
* Go pointers to section structs are `Option` values; `nil` is `none`.
* Go functions returning `error` return `Option ValidationError`
  (`none` = the `nil` error).
* `pkg/validation.Check` is not part of the sources at hand; it is
  modelled from the specification (required-field and minimum-duration
  checks over the struct tags of `model.go`, reporting the first failing
  field).  Each such definition is marked `Modelled from the spec:`.
* The external koanf library used by `LoadFromEnv` is embedded from its
  documented behaviour (prefix filter, key callback, unflattening on the
  `.` delimiter, tag-driven decoding with weak string coercion).
-/

namespace GoBoilerplate

/-- Go declaration `type Environment string` from `model.go`. -/
abbrev Environment := String

/-- Package-level value `EnvironmentStaging Environment = "STAGING"`. -/
def EnvironmentStaging : Environment := "STAGING"

/-- Package-level value `EnvironmentProduction Environment = "PRODUCTION"`. -/
def EnvironmentProduction : Environment := "PRODUCTION"

/-- Package-level value `EnvironmentDevelopment Environment = "DEVELOPMENT"`. -/
def EnvironmentDevelopment : Environment := "DEVELOPMENT"

/-- Go `unicode.ToLower` on one character, modelled for the ASCII range
(every alphabet the configuration code distinguishes is ASCII). -/
def charLower (c : Char) : Char :=
  if 'A' ≤ c ∧ c ≤ 'Z' then Char.ofNat (c.toNat + 32) else c

/-- Go `strings.ToLower`, character-wise. -/
def goToLower (s : String) : String :=
  ⟨s.data.map charLower⟩

/-- Character-level worker of `strings.Split` for a one-character
separator: `acc` holds the current field, reversed. -/
def splitCharsOn (sep : Char) : List Char → List Char → List (List Char)
  | [], acc => [acc.reverse]
  | c :: cs, acc =>
    if c = sep then acc.reverse :: splitCharsOn sep cs []
    else splitCharsOn sep cs (c :: acc)

/-- Go `strings.Split` on a one-character separator (the delimiters used
by the loader are `"."` and `","`). -/
def goSplit (s : String) (sep : Char) : List String :=
  (splitCharsOn sep s.data []).map (fun cs => (⟨cs⟩ : String))

/-- Digit-accumulator worker of `strconv` integer parsing. -/
def parseNatChars : List Char → Nat → Option Nat
  | [], acc => some acc
  | c :: cs, acc =>
    if '0' ≤ c ∧ c ≤ '9' then parseNatChars cs (acc * 10 + (c.toNat - 48))
    else none

/-- Go `strconv.ParseUint` (base 10, no sign). -/
def goParseNat (s : String) : Option Nat :=
  if s.data = [] then none else parseNatChars s.data 0

/-- Go `strconv.ParseInt` (base 10, optional sign). -/
def goParseInt (s : String) : Option Int :=
  match s.data with
  | '-' :: cs => if cs = [] then none else (parseNatChars cs 0).map (fun n => -(n : Int))
  | '+' :: cs => if cs = [] then none else (parseNatChars cs 0).map (fun n => (n : Int))
  | cs => if cs = [] then none else (parseNatChars cs 0).map (fun n => (n : Int))

/-- Go `strings.HasSuffix`. -/
def goHasSfx (s sfx : String) : Bool :=
  List.isSuffixOf sfx.data s.data

/-- Removal of the last `n` characters (for stripping a recognized
unit suffix). -/
def goDropLast (s : String) (n : Nat) : String :=
  ⟨s.data.take (s.data.length - n)⟩

/-- Method `func (e Environment) String() string` from `model.go`: lowercase
rendering, defaulting to `"development"` for unrecognized values. -/
def Environment.string (e : Environment) : String :=
  if e = EnvironmentStaging then "staging"
  else if e = EnvironmentProduction then "production"
  else if e = EnvironmentDevelopment then "development"
  else "development"

/-- Function `func ToEnvironment(str string) Environment` from `model.go`:
case-insensitive, alias-tolerant parsing defaulting to Development. -/
def ToEnvironment (str : String) : Environment :=
  match goToLower str with
  | "prod" | "production" => EnvironmentProduction
  | "staging" | "uat" | "qa" | "testing" => EnvironmentStaging
  | "dev" | "develop" | "development" | "local" => EnvironmentDevelopment
  | _ => EnvironmentDevelopment

/-- Struct `Logging` from `model.go`. -/
structure Logging where
  Level : String
  OutputPaths : List String
  deriving DecidableEq, Repr

/-- Struct `Service` from `model.go`. -/
structure Service where
  Name : String
  Version : String
  Environment : Environment
  deriving DecidableEq, Repr

/-- Struct `Server` from `model.go`.  Durations are nanosecond counts. -/
structure Server where
  Host : String
  Port : Nat
  ReadTimeout : Int
  WriteTimeout : Int
  IdleTimeout : Int
  ShutdownTimeout : Int
  deriving DecidableEq, Repr

/-- Struct `Database` from `model.go`. -/
structure Database where
  Host : String
  Port : Int
  User : String
  Password : String
  Name : String
  SSLMode : String
  MaxOpenConns : Int
  MaxIdleConns : Int
  ConnMaxLifetime : Int
  ConnMaxIdleTime : Int
  deriving DecidableEq, Repr

/-- Struct `HealthChecks` from `model.go`. -/
structure HealthChecks where
  Enabled : Bool
  Checks : List String
  Timeout : Int
  Interval : Int
  deriving DecidableEq, Repr

/-- Struct `Config` from `model.go`: the five section pointers. -/
structure Config where
  Server : Option Server
  Logging : Option Logging
  Database : Option Database
  Service : Option Service
  HealthChecks : Option HealthChecks
  deriving DecidableEq, Repr

/-- The rule violated by a failing field, per the spec's error model
(required / minimum / enum membership). -/
inductive Rule where
  | required
  | min
  deriving DecidableEq, Repr

/-- A validation failure names the offending field and the violated
rule, per the spec's `ValidationError` description. -/
structure ValidationError where
  field : String
  rule : Rule
  deriving DecidableEq, Repr

/-- One nanosecond count per second: the `1s` bound of the `min=1s`
tags and the "one time-unit" of the spec. -/
def oneSecond : Int := 1000000000

/-- Modelled from the spec: `pkg/validation.Check` on a `Server` value.
Every field of `Server` carries `validate:"required"`; `Check` reports
the first field still at its zero value, in declaration order. -/
def checkServer (s : Server) : Option ValidationError :=
  if s.Host = "" then some ⟨"Host", Rule.required⟩
  else if s.Port = 0 then some ⟨"Port", Rule.required⟩
  else if s.ReadTimeout = 0 then some ⟨"ReadTimeout", Rule.required⟩
  else if s.WriteTimeout = 0 then some ⟨"WriteTimeout", Rule.required⟩
  else if s.IdleTimeout = 0 then some ⟨"IdleTimeout", Rule.required⟩
  else if s.ShutdownTimeout = 0 then some ⟨"ShutdownTimeout", Rule.required⟩
  else none

/-- Modelled from the spec: `pkg/validation.Check` on a `Logging`
value.  Both fields are `validate:"required"`; the zero value of the
output-path list is the empty list. -/
def checkLogging (l : Logging) : Option ValidationError :=
  if l.Level = "" then some ⟨"Level", Rule.required⟩
  else if l.OutputPaths = [] then some ⟨"OutputPaths", Rule.required⟩
  else none

/-- Modelled from the spec: `pkg/validation.Check` on a `Database`
value.  Every field except `Password` carries `validate:"required"`. -/
def checkDatabase (db : Database) : Option ValidationError :=
  if db.Host = "" then some ⟨"Host", Rule.required⟩
  else if db.Port = 0 then some ⟨"Port", Rule.required⟩
  else if db.User = "" then some ⟨"User", Rule.required⟩
  else if db.Name = "" then some ⟨"Name", Rule.required⟩
  else if db.SSLMode = "" then some ⟨"SSLMode", Rule.required⟩
  else if db.MaxOpenConns = 0 then some ⟨"MaxOpenConns", Rule.required⟩
  else if db.MaxIdleConns = 0 then some ⟨"MaxIdleConns", Rule.required⟩
  else if db.ConnMaxLifetime = 0 then some ⟨"ConnMaxLifetime", Rule.required⟩
  else if db.ConnMaxIdleTime = 0 then some ⟨"ConnMaxIdleTime", Rule.required⟩
  else none

/-- Modelled from the spec: `pkg/validation.Check` on a `Service`
value.  All three fields are `validate:"required"`; the zero value of
the string-typed `Environment` is the empty string. -/
def checkService (s : Service) : Option ValidationError :=
  if s.Name = "" then some ⟨"Name", Rule.required⟩
  else if s.Version = "" then some ⟨"Version", Rule.required⟩
  else if s.Environment = "" then some ⟨"Environment", Rule.required⟩
  else none

/-- Modelled from the spec: `pkg/validation.Check` on a `HealthChecks`
value.  `Enabled` and `Checks` carry no validation tag; `Timeout` and
`Interval` carry `validate:"min=1s"`. -/
def checkHealthChecks (hc : HealthChecks) : Option ValidationError :=
  if hc.Timeout < oneSecond then some ⟨"Timeout", Rule.min⟩
  else if hc.Interval < oneSecond then some ⟨"Interval", Rule.min⟩
  else none

/-- Modelled from the spec: `pkg/validation.Check` on the root
`Config`.  All five section pointers carry `validate:"required"`; the
first `nil` one, in declaration order, is reported. -/
def checkConfig (conf : Config) : Option ValidationError :=
  if conf.Server = none then some ⟨"Server", Rule.required⟩
  else if conf.Logging = none then some ⟨"Logging", Rule.required⟩
  else if conf.Database = none then some ⟨"Database", Rule.required⟩
  else if conf.Service = none then some ⟨"Service", Rule.required⟩
  else if conf.HealthChecks = none then some ⟨"HealthChecks", Rule.required⟩
  else none

/-- Method `func (s *Server) Validate() error { return validation.Check(s) }`. -/
def Server.Validate (s : Server) : Option ValidationError :=
  checkServer s

/-- Method `func (l *Logging) Validate() error { return validation.Check(l) }`. -/
def Logging.Validate (l : Logging) : Option ValidationError :=
  checkLogging l

/-- Method `func (db *Database) Validate() error { return validation.Check(db) }`. -/
def Database.Validate (db : Database) : Option ValidationError :=
  checkDatabase db

/-- Method `func (s *Service) Validate() error { return validation.Check(s) }`. -/
def Service.Validate (s : Service) : Option ValidationError :=
  checkService s

/-- Method `func (hc *HealthChecks) Validate() error { return validation.Check(hc) }`. -/
def HealthChecks.Validate (hc : HealthChecks) : Option ValidationError :=
  checkHealthChecks hc

/-- The tail of `Validate` starting at the `conf.HealthChecks != nil`
guard (`config.go`, last guarded block and the final `return nil`). -/
def validateFromHealthChecks (conf : Config) : Option ValidationError :=
  match conf.HealthChecks with
  | some hc =>
    match hc.Validate with
    | some err => some err
    | none => none
  | none => none

/-- The tail of `Validate` starting at the `conf.Service != nil` guard. -/
def validateFromService (conf : Config) : Option ValidationError :=
  match conf.Service with
  | some s =>
    match s.Validate with
    | some err => some err
    | none => validateFromHealthChecks conf
  | none => validateFromHealthChecks conf

/-- The tail of `Validate` starting at the `conf.Database != nil` guard. -/
def validateFromDatabase (conf : Config) : Option ValidationError :=
  match conf.Database with
  | some db =>
    match db.Validate with
    | some err => some err
    | none => validateFromService conf
  | none => validateFromService conf

/-- The tail of `Validate` starting at the `conf.Logging != nil` guard. -/
def validateFromLogging (conf : Config) : Option ValidationError :=
  match conf.Logging with
  | some l =>
    match l.Validate with
    | some err => some err
    | none => validateFromDatabase conf
  | none => validateFromDatabase conf

/-- Function `func Validate(conf *Config) error` from `config.go`: the root
structural check, then each section's `Validate`, each guarded by a
`!= nil` test, returning the first non-`nil` error. -/
def Validate (conf : Config) : Option ValidationError :=
  match checkConfig conf with
  | some err => some err
  | none =>
    match conf.Server with
    | some s =>
      match s.Validate with
      | some err => some err
      | none => validateFromLogging conf
    | none => validateFromLogging conf

/-!
## Pointer-state model of `Validate`

Go passes each section to its `Validate` method by pointer, so a method
could in principle write through the receiver and mutate the `Config`.
To state the frame property ("`Validate` never modifies the `Config`"),
the methods are re-embedded in state-passing style: each returns the
(possibly updated) receiver next to its error, and `ValidateSt` writes
every returned receiver back into the `Config`, statement by statement
as in the source.  `validation.Check` reads fields reflectively and
performs no writes (Modelled from the spec: the structure "is immutable
thereafter (no mutation API)"), so each method returns its receiver
unchanged — which is exactly what the frame theorem then propagates. -/

/-- State-passing `validation.Check`: reads the value, writes nothing. -/
def checkConfigSt (conf : Config) : Config × Option ValidationError :=
  (conf, checkConfig conf)

/-- State-passing `(*Server).Validate`. -/
def Server.validateSt (s : Server) : Server × Option ValidationError :=
  (s, checkServer s)

/-- State-passing `(*Logging).Validate`. -/
def Logging.validateSt (l : Logging) : Logging × Option ValidationError :=
  (l, checkLogging l)

/-- State-passing `(*Database).Validate`. -/
def Database.validateSt (db : Database) : Database × Option ValidationError :=
  (db, checkDatabase db)

/-- State-passing `(*Service).Validate`. -/
def Service.validateSt (s : Service) : Service × Option ValidationError :=
  (s, checkService s)

/-- State-passing `(*HealthChecks).Validate`. -/
def HealthChecks.validateSt (hc : HealthChecks) : HealthChecks × Option ValidationError :=
  (hc, checkHealthChecks hc)

/-- State-passing tail of `Validate` from the `HealthChecks` guard. -/
def validateStFromHealthChecks (conf : Config) : Config × Option ValidationError :=
  match conf.HealthChecks with
  | some hc =>
    match hc.validateSt with
    | (hc1, some err) => ({ conf with HealthChecks := some hc1 }, some err)
    | (hc1, none) => ({ conf with HealthChecks := some hc1 }, none)
  | none => (conf, none)

/-- State-passing tail of `Validate` from the `Service` guard. -/
def validateStFromService (conf : Config) : Config × Option ValidationError :=
  match conf.Service with
  | some s =>
    match s.validateSt with
    | (s1, some err) => ({ conf with Service := some s1 }, some err)
    | (s1, none) => validateStFromHealthChecks { conf with Service := some s1 }
  | none => validateStFromHealthChecks conf

/-- State-passing tail of `Validate` from the `Database` guard. -/
def validateStFromDatabase (conf : Config) : Config × Option ValidationError :=
  match conf.Database with
  | some db =>
    match db.validateSt with
    | (db1, some err) => ({ conf with Database := some db1 }, some err)
    | (db1, none) => validateStFromService { conf with Database := some db1 }
  | none => validateStFromService conf

/-- State-passing tail of `Validate` from the `Logging` guard. -/
def validateStFromLogging (conf : Config) : Config × Option ValidationError :=
  match conf.Logging with
  | some l =>
    match l.validateSt with
    | (l1, some err) => ({ conf with Logging := some l1 }, some err)
    | (l1, none) => validateStFromDatabase { conf with Logging := some l1 }
  | none => validateStFromDatabase conf

/-- State-passing `Validate`: threads the `Config` through the root
check and every section method, writing method receivers back. -/
def ValidateSt (conf : Config) : Config × Option ValidationError :=
  match checkConfigSt conf with
  | (conf1, some err) => (conf1, some err)
  | (conf1, none) =>
    match conf1.Server with
    | some s =>
      match s.validateSt with
      | (s1, some err) => ({ conf1 with Server := some s1 }, some err)
      | (s1, none) => validateStFromLogging { conf1 with Server := some s1 }
    | none => validateStFromLogging conf1

/-!
## Nil-dereference model of `Validate`

To state that `Validate` is total and never dereferences a nil section
pointer, the pointer accesses are embedded in an `Except` monad:
`derefSection` faults on `none`, exactly where Go would panic, and each
call of a section method goes through it.  The source's `!= nil` guards
are the `isSome` tests. -/

/-- Dereference of a section pointer: faults on `nil`. -/
def derefSection {α : Type} (p : Option α) : Except String α :=
  match p with
  | some a => Except.ok a
  | none => Except.error "runtime error: invalid memory address or nil pointer dereference"

/-- Deref-instrumented tail of `Validate` from the `HealthChecks` guard. -/
def validateSafeFromHealthChecks (conf : Config) : Except String (Option ValidationError) :=
  if conf.HealthChecks.isSome then
    match derefSection conf.HealthChecks with
    | Except.error e => Except.error e
    | Except.ok hc =>
      match hc.Validate with
      | some err => Except.ok (some err)
      | none => Except.ok none
  else Except.ok none

/-- Deref-instrumented tail of `Validate` from the `Service` guard. -/
def validateSafeFromService (conf : Config) : Except String (Option ValidationError) :=
  if conf.Service.isSome then
    match derefSection conf.Service with
    | Except.error e => Except.error e
    | Except.ok s =>
      match s.Validate with
      | some err => Except.ok (some err)
      | none => validateSafeFromHealthChecks conf
  else validateSafeFromHealthChecks conf

/-- Deref-instrumented tail of `Validate` from the `Database` guard. -/
def validateSafeFromDatabase (conf : Config) : Except String (Option ValidationError) :=
  if conf.Database.isSome then
    match derefSection conf.Database with
    | Except.error e => Except.error e
    | Except.ok db =>
      match db.Validate with
      | some err => Except.ok (some err)
      | none => validateSafeFromService conf
  else validateSafeFromService conf

/-- Deref-instrumented tail of `Validate` from the `Logging` guard. -/
def validateSafeFromLogging (conf : Config) : Except String (Option ValidationError) :=
  if conf.Logging.isSome then
    match derefSection conf.Logging with
    | Except.error e => Except.error e
    | Except.ok l =>
      match l.Validate with
      | some err => Except.ok (some err)
      | none => validateSafeFromDatabase conf
  else validateSafeFromDatabase conf

/-- Deref-instrumented `Validate`: every section access goes through
`derefSection`, guarded as in the source by the `!= nil` tests. -/
def ValidateSafe (conf : Config) : Except String (Option ValidationError) :=
  match checkConfig conf with
  | some err => Except.ok (some err)
  | none =>
    if conf.Server.isSome then
      match derefSection conf.Server with
      | Except.error e => Except.error e
      | Except.ok s =>
        match s.Validate with
        | some err => Except.ok (some err)
        | none => validateSafeFromLogging conf
    else validateSafeFromLogging conf

/-!
## The loader

`LoadFromEnv` (`config.go`) builds a koanf instance with delimiter
`"."`, loads `env.Provider("BOILERPLATE_", ".", cb)` where
`cb s = strings.ToLower(strings.TrimPrefix(s, "BOILERPLATE_"))`, and
unmarshals the result into a `Config` via the `koanf:"..."` tags of
`model.go`.  The koanf library is external; it is embedded here from
its documented behaviour:
* the env provider keeps the variables carrying the prefix, applies the
  callback to each name, and unflattens the resulting flat string map
  on the delimiter;
* `Unmarshal` decodes the nested map into the struct by matching each
  field's `koanf` tag against the map keys, leaving absent fields at
  their zero value, coercing leaf strings into the field's type
  (integers, booleans, comma-separated string lists, Go duration
  syntax), and failing on a structural mismatch.
A failed decode is `none` (the Go `error` return). -/

/-- A node of the nested key/value map the koanf env provider yields:
either a leaf string or a sub-map (association list, insertion
ordered). -/
inductive EnvVal where
  | str : String → EnvVal
  | map : List (String × EnvVal) → EnvVal

/-- Lookup in a nested-map level. -/
def lookupKV (m : List (String × EnvVal)) (k : String) : Option EnvVal :=
  match m with
  | [] => none
  | (k1, v) :: rest => if k1 = k then some v else lookupKV rest k

/-- Map assignment on a nested-map level: overwrite or append. -/
def setKV (m : List (String × EnvVal)) (k : String) (v : EnvVal) : List (String × EnvVal) :=
  match m with
  | [] => [(k, v)]
  | (k1, v1) :: rest => if k1 = k then (k, v) :: rest else (k1, v1) :: setKV rest k v

/-- Insertion of one delimiter-split key path and its leaf value,
as koanf's `maps.Unflatten` does per entry. -/
def insertPath (m : List (String × EnvVal)) (path : List String) (v : String) :
    List (String × EnvVal) :=
  match path with
  | [] => m
  | [k] => setKV m k (EnvVal.str v)
  | k :: rest =>
    let sub := match lookupKV m k with
      | some (EnvVal.map sm) => sm
      | _ => []
    setKV m k (EnvVal.map (insertPath sub rest v))

/-- koanf `maps.Unflatten` over the flat key/value list: each key is
split on the `"."` delimiter and inserted as a path. -/
def unflatten (flat : List (String × String)) : List (String × EnvVal) :=
  flat.foldl (fun m kv => insertPath m (goSplit kv.1 '.') kv.2) []

/-- The env provider's filter-and-transform: keep names carrying
`BOILERPLATE_`, strip that prefix (12 characters) and lowercase the
rest, exactly the callback in `LoadFromEnv`. -/
def loadFlat (environ : List (String × String)) : List (String × String) :=
  environ.filterMap (fun kv =>
    if List.isPrefixOf "BOILERPLATE_".data kv.1.data then
      some (goToLower ⟨kv.1.data.drop 12⟩, kv.2)
    else none)

/-- Go `strconv.ParseBool`, used by the weak string-to-bool coercion. -/
def parseGoBool (s : String) : Option Bool :=
  if s = "1" ∨ s = "t" ∨ s = "T" ∨ s = "TRUE" ∨ s = "true" ∨ s = "True" then some true
  else if s = "0" ∨ s = "f" ∨ s = "F" ∨ s = "FALSE" ∨ s = "false" ∨ s = "False" then some false
  else none

/-- Go `time.ParseDuration`, as invoked by the decoder's
string-to-duration hook, modelled for its simple forms: `"0"`, or an
unsigned integer followed by one unit suffix.  Result in
nanoseconds. -/
def parseGoDuration (s : String) : Option Int :=
  if s = "0" then some 0
  else if goHasSfx s "ns" then (goParseNat (goDropLast s 2)).map (fun n => (n : Int))
  else if goHasSfx s "us" then (goParseNat (goDropLast s 2)).map (fun n => (n : Int) * 1000)
  else if goHasSfx s "ms" then (goParseNat (goDropLast s 2)).map (fun n => (n : Int) * 1000000)
  else if goHasSfx s "s" then (goParseNat (goDropLast s 1)).map (fun n => (n : Int) * 1000000000)
  else if goHasSfx s "m" then (goParseNat (goDropLast s 1)).map (fun n => (n : Int) * 60000000000)
  else if goHasSfx s "h" then (goParseNat (goDropLast s 1)).map (fun n => (n : Int) * 3600000000000)
  else none

/-- Decode a string-typed field: absent keys give the zero value `""`,
a sub-map is a structural mismatch. -/
def getStr (m : List (String × EnvVal)) (k : String) : Option String :=
  match lookupKV m k with
  | none => some ""
  | some (EnvVal.str s) => some s
  | some (EnvVal.map _) => none

/-- Decode an unsigned-integer field (weak string coercion). -/
def getNat (m : List (String × EnvVal)) (k : String) : Option Nat :=
  match lookupKV m k with
  | none => some 0
  | some (EnvVal.str s) => goParseNat s
  | some (EnvVal.map _) => none

/-- Decode a signed-integer field (weak string coercion). -/
def getInt (m : List (String × EnvVal)) (k : String) : Option Int :=
  match lookupKV m k with
  | none => some 0
  | some (EnvVal.str s) => goParseInt s
  | some (EnvVal.map _) => none

/-- Decode a boolean field (weak string coercion). -/
def getBool (m : List (String × EnvVal)) (k : String) : Option Bool :=
  match lookupKV m k with
  | none => some false
  | some (EnvVal.str s) => parseGoBool s
  | some (EnvVal.map _) => none

/-- Decode a string-list field: the comma-split hook, empty string
giving the empty list. -/
def getStrList (m : List (String × EnvVal)) (k : String) : Option (List String) :=
  match lookupKV m k with
  | none => some []
  | some (EnvVal.str s) => some (if s = "" then [] else goSplit s ',')
  | some (EnvVal.map _) => none

/-- Decode a `time.Duration` field: the string-to-duration hook. -/
def getDur (m : List (String × EnvVal)) (k : String) : Option Int :=
  match lookupKV m k with
  | none => some 0
  | some (EnvVal.str s) => parseGoDuration s
  | some (EnvVal.map _) => none

/-- Decode a `Server` from a node, by the `koanf` tags of `model.go`
(`server_host`, `server_port`, ...); a leaf string cannot decode into
a struct. -/
def decodeServer (v : EnvVal) : Option Server :=
  match v with
  | EnvVal.str _ => none
  | EnvVal.map m => do
    let host ← getStr m "server_host"
    let port ← getNat m "server_port"
    let rt ← getDur m "server_read_timeout"
    let wt ← getDur m "server_write_timeout"
    let it ← getDur m "server_idle_timeout"
    let st ← getDur m "server_shutdown_timeout"
    some ⟨host, port, rt, wt, it, st⟩

/-- Decode a `Logging` from a node (tags `level`, `output_paths`). -/
def decodeLogging (v : EnvVal) : Option Logging :=
  match v with
  | EnvVal.str _ => none
  | EnvVal.map m => do
    let level ← getStr m "level"
    let paths ← getStrList m "output_paths"
    some ⟨level, paths⟩

/-- Decode a `Database` from a node (tags `db_host`, `db_port`, ...). -/
def decodeDatabase (v : EnvVal) : Option Database :=
  match v with
  | EnvVal.str _ => none
  | EnvVal.map m => do
    let host ← getStr m "db_host"
    let port ← getInt m "db_port"
    let user ← getStr m "db_user"
    let pw ← getStr m "db_password"
    let name ← getStr m "db_name"
    let ssl ← getStr m "db_ssl_mode"
    let mo ← getInt m "db_max_open_conns"
    let mi ← getInt m "db_max_idle_conns"
    let cl ← getInt m "db_conn_max_lifetime"
    let ci ← getInt m "db_conn_max_idle_time"
    some ⟨host, port, user, pw, name, ssl, mo, mi, cl, ci⟩

/-- Decode a `Service` from a node (tags `service_name`,
`service_version`, `service_environment`). -/
def decodeService (v : EnvVal) : Option Service :=
  match v with
  | EnvVal.str _ => none
  | EnvVal.map m => do
    let name ← getStr m "service_name"
    let version ← getStr m "service_version"
    let env ← getStr m "service_environment"
    some ⟨name, version, env⟩

/-- Decode a `HealthChecks` from a node (tags `enabled`, `checks`,
`timeout`, `interval`). -/
def decodeHealthChecks (v : EnvVal) : Option HealthChecks :=
  match v with
  | EnvVal.str _ => none
  | EnvVal.map m => do
    let en ← getBool m "enabled"
    let checks ← getStrList m "checks"
    let t ← getDur m "timeout"
    let i ← getDur m "interval"
    some ⟨en, checks, t, i⟩

/-- Decode one section pointer: an absent key leaves the pointer `nil`;
a present node must decode. -/
def decodeSection {α : Type} (m : List (String × EnvVal)) (k : String)
    (dec : EnvVal → Option α) : Option (Option α) :=
  match lookupKV m k with
  | none => some none
  | some v => (dec v).map some

/-- Decode the root `Config` from the unflattened map, by its `koanf`
tags (`server`, `logging`, `database`, `application`,
`health_checks`). -/
def decodeConfig (m : List (String × EnvVal)) : Option Config := do
  let server ← decodeSection m "server" decodeServer
  let logging ← decodeSection m "logging" decodeLogging
  let database ← decodeSection m "database" decodeDatabase
  let service ← decodeSection m "application" decodeService
  let hcs ← decodeSection m "health_checks" decodeHealthChecks
  some ⟨server, logging, database, service, hcs⟩

/-- Function `func LoadFromEnv() (*Config, error)` from `config.go`, over an
explicit environment snapshot (name/value pairs): filter and transform
the names, unflatten on `"."`, decode into `Config`.  `none` is the
error return. -/
def LoadFromEnv (environ : List (String × String)) : Option Config :=
  decodeConfig (unflatten (loadFlat environ))

/-- A fully-specified environment: every section of the configuration
supplied through its documented `BOILERPLATE_`-prefixed variables. -/
def demoEnviron : List (String × String) :=
  [("BOILERPLATE_SERVER_HOST", "0.0.0.0"),
   ("BOILERPLATE_SERVER_PORT", "8080"),
   ("BOILERPLATE_SERVER_READ_TIMEOUT", "5s"),
   ("BOILERPLATE_SERVER_WRITE_TIMEOUT", "10s"),
   ("BOILERPLATE_SERVER_IDLE_TIMEOUT", "60s"),
   ("BOILERPLATE_SERVER_SHUTDOWN_TIMEOUT", "20s"),
   ("BOILERPLATE_LOGGING_LEVEL", "info"),
   ("BOILERPLATE_LOGGING_OUTPUT_PATHS", "stdout"),
   ("BOILERPLATE_DB_HOST", "localhost"),
   ("BOILERPLATE_DB_PORT", "5432"),
   ("BOILERPLATE_DB_USER", "postgres"),
   ("BOILERPLATE_DB_PASSWORD", "secret"),
   ("BOILERPLATE_DB_NAME", "app"),
   ("BOILERPLATE_DB_SSL_MODE", "disable"),
   ("BOILERPLATE_DB_MAX_OPEN_CONNS", "10"),
   ("BOILERPLATE_DB_MAX_IDLE_CONNS", "5"),
   ("BOILERPLATE_DB_CONN_MAX_LIFETIME", "300"),
   ("BOILERPLATE_DB_CONN_MAX_IDLE_TIME", "60"),
   ("BOILERPLATE_SERVICE_NAME", "boilerplate"),
   ("BOILERPLATE_SERVICE_VERSION", "1.0.0"),
   ("BOILERPLATE_SERVICE_ENVIRONMENT", "production"),
   ("BOILERPLATE_HEALTH_CHECKS_ENABLED", "true"),
   ("BOILERPLATE_HEALTH_CHECKS_CHECKS", "database"),
   ("BOILERPLATE_HEALTH_CHECKS_TIMEOUT", "5s"),
   ("BOILERPLATE_HEALTH_CHECKS_INTERVAL", "30s")]

/-!
## Theorems -/

/-- C4: `ToEnvironment` is case-insensitive (it depends on its input
only through its lowercasing), maps the lowercased aliases `prod` and
`production` to Production, `staging`/`uat`/`qa`/`testing` to Staging,
`dev`/`develop`/`development`/`local` to Development, and every other
string to Development; in particular `"PROD"`, `"prod"`,
`"production"` parse to Production and `"garbage"` to Development. -/
theorem toEnvironment_alias_table :
    (∀ s1 s2 : String, goToLower s1 = goToLower s2 → ToEnvironment s1 = ToEnvironment s2)
    ∧ (∀ s : String, goToLower s = "prod" ∨ goToLower s = "production" →
        ToEnvironment s = EnvironmentProduction)
    ∧ (∀ s : String, goToLower s = "staging" ∨ goToLower s = "uat" ∨
        goToLower s = "qa" ∨ goToLower s = "testing" →
        ToEnvironment s = EnvironmentStaging)
    ∧ (∀ s : String, goToLower s = "dev" ∨ goToLower s = "develop" ∨
        goToLower s = "development" ∨ goToLower s = "local" →
        ToEnvironment s = EnvironmentDevelopment)
    ∧ (∀ s : String,
        goToLower s ∉ (["prod", "production", "staging", "uat", "qa", "testing",
          "dev", "develop", "development", "local"] : List String) →
        ToEnvironment s = EnvironmentDevelopment)
    ∧ ToEnvironment "PROD" = EnvironmentProduction
    ∧ ToEnvironment "prod" = EnvironmentProduction
    ∧ ToEnvironment "production" = EnvironmentProduction
    ∧ ToEnvironment "garbage" = EnvironmentDevelopment := by
  refine ⟨?_, ?_, ?_, ?_, ?_, by decide, by decide, by decide, by decide⟩
  · intro s1 s2 h
    unfold ToEnvironment
    rw [h]
  · rintro s (h | h) <;> (unfold ToEnvironment; rw [h]; decide)
  · rintro s (h | h | h | h) <;> (unfold ToEnvironment; rw [h]; decide)
  · rintro s (h | h | h | h) <;> (unfold ToEnvironment; rw [h]; decide)
  · intro s h
    simp only [List.mem_cons, List.not_mem_nil, or_false, not_or] at h
    obtain ⟨h1, h2, h3, h4, h5, h6, h7, h8, h9, h10⟩ := h
    unfold ToEnvironment
    split <;> simp_all

/-- Closed instantiation of `toEnvironment_alias_table`. -/
theorem toEnvironment_alias_table_witness :
    ToEnvironment "PROD" = ToEnvironment "prod"
    ∧ ToEnvironment "uat" = EnvironmentStaging
    ∧ ToEnvironment "DEVELOP" = EnvironmentDevelopment
    ∧ ToEnvironment "garbage2" = EnvironmentDevelopment := by
  obtain ⟨hlow, _, hstg, hdev, hdefault, _⟩ := toEnvironment_alias_table
  exact ⟨hlow "PROD" "prod" (by decide), hstg "uat" (by decide),
    hdev "DEVELOP" (by decide), hdefault "garbage2" (by decide)⟩

/-- C5: rendering each of the three defined `Environment` variants
with `String()` and re-parsing with `ToEnvironment` yields the same
variant. -/
theorem environment_string_roundtrip :
    ToEnvironment (Environment.string EnvironmentStaging) = EnvironmentStaging
    ∧ ToEnvironment (Environment.string EnvironmentProduction) = EnvironmentProduction
    ∧ ToEnvironment (Environment.string EnvironmentDevelopment) = EnvironmentDevelopment := by
  decide

/-- C8: `String()` always returns one of `"staging"`, `"production"`,
`"development"`, and returns `"development"` for every value other
than the three defined variants (in particular for the empty
string). -/
theorem environment_string_total :
    (∀ e : Environment,
      Environment.string e = "staging" ∨ Environment.string e = "production" ∨
        Environment.string e = "development")
    ∧ (∀ e : Environment, e ≠ EnvironmentStaging → e ≠ EnvironmentProduction →
        e ≠ EnvironmentDevelopment → Environment.string e = "development")
    ∧ Environment.string "" = "development" := by
  refine ⟨?_, ?_, by decide⟩
  · intro e
    unfold Environment.string
    split_ifs <;> simp
  · intro e h1 h2 h3
    unfold Environment.string
    rw [if_neg h1, if_neg h2, if_neg h3]

/-- Closed instantiation of `environment_string_total`. -/
theorem environment_string_total_witness :
    Environment.string "garbage" = "development" :=
  environment_string_total.2.1 "garbage" (by decide) (by decide) (by decide)

/-- C6: with the other `HealthChecks` fields arbitrary, a `Timeout`
strictly below one second fails validation (naming `Timeout`), a
`Timeout` of exactly one second passes the timeout check, and the same
one-second minimum governs `Interval`. -/
theorem healthChecks_min_one_second :
    ∀ (en : Bool) (cs : List String) (t i : Int),
      (t < oneSecond → checkHealthChecks ⟨en, cs, t, i⟩ = some ⟨"Timeout", Rule.min⟩)
      ∧ (t = oneSecond → oneSecond ≤ i → checkHealthChecks ⟨en, cs, t, i⟩ = none)
      ∧ (oneSecond ≤ t → i < oneSecond →
          checkHealthChecks ⟨en, cs, t, i⟩ = some ⟨"Interval", Rule.min⟩)
      ∧ (oneSecond ≤ t → i = oneSecond → checkHealthChecks ⟨en, cs, t, i⟩ = none) := by
  intro en cs t i
  refine ⟨?_, ?_, ?_, ?_⟩
  · intro h1
    simp only [checkHealthChecks]
    dsimp only
    rw [if_pos h1]
  · intro h1 h2
    simp only [checkHealthChecks]
    dsimp only
    rw [if_neg (by omega), if_neg (by omega)]
  · intro h1 h2
    simp only [checkHealthChecks]
    dsimp only
    rw [if_neg (by omega), if_pos h2]
  · intro h1 h2
    simp only [checkHealthChecks]
    dsimp only
    rw [if_neg (by omega), if_neg (by omega)]

/-- Closed instantiation of `healthChecks_min_one_second`: 500ms fails
naming `Timeout`; exactly 1s (with a valid interval) passes. -/
theorem healthChecks_min_one_second_witness :
    checkHealthChecks ⟨true, ["database"], 500000000, 30000000000⟩
        = some ⟨"Timeout", Rule.min⟩
    ∧ checkHealthChecks ⟨true, ["database"], 1000000000, 1000000000⟩ = none := by
  refine ⟨(healthChecks_min_one_second true ["database"] 500000000 30000000000).1 (by decide),
    ?_⟩
  have h := (healthChecks_min_one_second true ["database"] 1000000000 1000000000).2.1
  exact h (by decide) (by decide)

/-- C7: `Database` validation requires every field except `Password`:
any `Database` whose nine required fields are non-zero passes (its
`Password` unconstrained, so in particular an empty one), the result
never depends on `Password`, and zeroing any one of the nine required
fields fails validation. -/
theorem database_password_optional :
    ∀ db : Database,
      (db.Host ≠ "" → db.Port ≠ 0 → db.User ≠ "" → db.Name ≠ "" → db.SSLMode ≠ "" →
        db.MaxOpenConns ≠ 0 → db.MaxIdleConns ≠ 0 → db.ConnMaxLifetime ≠ 0 →
        db.ConnMaxIdleTime ≠ 0 → checkDatabase db = none)
      ∧ (∀ pw : String, checkDatabase { db with Password := pw } = checkDatabase db)
      ∧ (db.Host = "" → checkDatabase db ≠ none)
      ∧ (db.Port = 0 → checkDatabase db ≠ none)
      ∧ (db.User = "" → checkDatabase db ≠ none)
      ∧ (db.Name = "" → checkDatabase db ≠ none)
      ∧ (db.SSLMode = "" → checkDatabase db ≠ none)
      ∧ (db.MaxOpenConns = 0 → checkDatabase db ≠ none)
      ∧ (db.MaxIdleConns = 0 → checkDatabase db ≠ none)
      ∧ (db.ConnMaxLifetime = 0 → checkDatabase db ≠ none)
      ∧ (db.ConnMaxIdleTime = 0 → checkDatabase db ≠ none) := by
  intro db
  refine ⟨?_, ?_, ?_, ?_, ?_, ?_, ?_, ?_, ?_, ?_, ?_⟩
  · intro h1 h2 h3 h4 h5 h6 h7 h8 h9
    simp [checkDatabase, h1, h2, h3, h4, h5, h6, h7, h8, h9]
  · intro pw
    cases db
    rfl
  all_goals (intro h; unfold checkDatabase; split_ifs <;> simp_all)

/-- Closed instantiation of `database_password_optional`: a database
section with empty password and the rest populated passes; blanking
the host fails. -/
theorem database_password_optional_witness :
    checkDatabase ⟨"localhost", 5432, "postgres", "", "app", "disable", 10, 5, 300, 60⟩ = none
    ∧ checkDatabase ⟨"", 5432, "postgres", "", "app", "disable", 10, 5, 300, 60⟩ ≠ none := by
  constructor
  · exact (database_password_optional
      ⟨"localhost", 5432, "postgres", "", "app", "disable", 10, 5, 300, 60⟩).1
      (by decide) (by decide) (by decide) (by decide) (by decide) (by decide) (by decide)
      (by decide) (by decide)
  · exact (database_password_optional
      ⟨"", 5432, "postgres", "", "app", "disable", 10, 5, 300, 60⟩).2.2.1 (by decide)

/-- The root structural check passes exactly when all five sections
are present. -/
lemma checkConfig_eq_none_iff (conf : Config) :
    checkConfig conf = none ↔
      conf.Server ≠ none ∧ conf.Logging ≠ none ∧ conf.Database ≠ none ∧
        conf.Service ≠ none ∧ conf.HealthChecks ≠ none := by
  unfold checkConfig
  split_ifs <;> simp_all

/-- A `Config` with any section missing fails `Validate`. -/
lemma nilSection_validate_some (conf : Config)
    (h : conf.Server = none ∨ conf.Logging = none ∨ conf.Database = none ∨
      conf.Service = none ∨ conf.HealthChecks = none) :
    ∃ e, Validate conf = some e := by
  cases hc : checkConfig conf with
  | some e => exact ⟨e, by simp only [Validate, hc]⟩
  | none =>
    rw [checkConfig_eq_none_iff] at hc
    rcases h with h | h | h | h | h <;> simp_all

/-- C2: `Validate` runs the structural root check first and then the
section checks in the fixed order Server, Logging, Database, Service,
HealthChecks, returning the first error: whatever error the earliest
failing check produces is the result, regardless of the later
sections' contents, and when every check passes the result is `nil`. -/
theorem validate_first_error_in_order :
    ∀ conf : Config,
      (∀ e, checkConfig conf = some e → Validate conf = some e)
      ∧ (∀ s e, checkConfig conf = none → conf.Server = some s →
          checkServer s = some e → Validate conf = some e)
      ∧ (∀ l e, checkConfig conf = none →
          (∀ s, conf.Server = some s → checkServer s = none) →
          conf.Logging = some l → checkLogging l = some e → Validate conf = some e)
      ∧ (∀ d e, checkConfig conf = none →
          (∀ s, conf.Server = some s → checkServer s = none) →
          (∀ l, conf.Logging = some l → checkLogging l = none) →
          conf.Database = some d → checkDatabase d = some e → Validate conf = some e)
      ∧ (∀ sv e, checkConfig conf = none →
          (∀ s, conf.Server = some s → checkServer s = none) →
          (∀ l, conf.Logging = some l → checkLogging l = none) →
          (∀ d, conf.Database = some d → checkDatabase d = none) →
          conf.Service = some sv → checkService sv = some e → Validate conf = some e)
      ∧ (∀ hc e, checkConfig conf = none →
          (∀ s, conf.Server = some s → checkServer s = none) →
          (∀ l, conf.Logging = some l → checkLogging l = none) →
          (∀ d, conf.Database = some d → checkDatabase d = none) →
          (∀ sv, conf.Service = some sv → checkService sv = none) →
          conf.HealthChecks = some hc → checkHealthChecks hc = some e →
          Validate conf = some e)
      ∧ (checkConfig conf = none →
          (∀ s, conf.Server = some s → checkServer s = none) →
          (∀ l, conf.Logging = some l → checkLogging l = none) →
          (∀ d, conf.Database = some d → checkDatabase d = none) →
          (∀ sv, conf.Service = some sv → checkService sv = none) →
          (∀ hc, conf.HealthChecks = some hc → checkHealthChecks hc = none) →
          Validate conf = none) := by
  intro conf
  refine ⟨?_, ?_, ?_, ?_, ?_, ?_, ?_⟩
  · intro e h0
    simp only [Validate, h0]
  · intro s e h0 hS hE
    simp only [Validate, h0, hS, Server.Validate, hE]
  · intro l e h0 hSok hL hE
    have h01 := (checkConfig_eq_none_iff conf).mp h0
    obtain ⟨s, hS⟩ := Option.ne_none_iff_exists'.mp h01.1
    have hs0 := hSok s hS
    simp only [Validate, h0, hS, Server.Validate, hs0,
      validateFromLogging, hL, Logging.Validate, hE]
  · intro d e h0 hSok hLok hD hE
    have h01 := (checkConfig_eq_none_iff conf).mp h0
    obtain ⟨s, hS⟩ := Option.ne_none_iff_exists'.mp h01.1
    obtain ⟨l, hL⟩ := Option.ne_none_iff_exists'.mp h01.2.1
    have hs0 := hSok s hS
    have hl0 := hLok l hL
    simp only [Validate, h0, hS, Server.Validate, hs0,
      validateFromLogging, hL, Logging.Validate, hl0,
      validateFromDatabase, hD, Database.Validate, hE]
  · intro sv e h0 hSok hLok hDok hSv hE
    have h01 := (checkConfig_eq_none_iff conf).mp h0
    obtain ⟨s, hS⟩ := Option.ne_none_iff_exists'.mp h01.1
    obtain ⟨l, hL⟩ := Option.ne_none_iff_exists'.mp h01.2.1
    obtain ⟨d, hD⟩ := Option.ne_none_iff_exists'.mp h01.2.2.1
    have hs0 := hSok s hS
    have hl0 := hLok l hL
    have hd0 := hDok d hD
    simp only [Validate, h0, hS, Server.Validate, hs0,
      validateFromLogging, hL, Logging.Validate, hl0,
      validateFromDatabase, hD, Database.Validate, hd0,
      validateFromService, hSv, Service.Validate, hE]
  · intro hc e h0 hSok hLok hDok hSvok hHc hE
    have h01 := (checkConfig_eq_none_iff conf).mp h0
    obtain ⟨s, hS⟩ := Option.ne_none_iff_exists'.mp h01.1
    obtain ⟨l, hL⟩ := Option.ne_none_iff_exists'.mp h01.2.1
    obtain ⟨d, hD⟩ := Option.ne_none_iff_exists'.mp h01.2.2.1
    obtain ⟨sv, hSv⟩ := Option.ne_none_iff_exists'.mp h01.2.2.2.1
    have hs0 := hSok s hS
    have hl0 := hLok l hL
    have hd0 := hDok d hD
    have hsv0 := hSvok sv hSv
    simp only [Validate, h0, hS, Server.Validate, hs0,
      validateFromLogging, hL, Logging.Validate, hl0,
      validateFromDatabase, hD, Database.Validate, hd0,
      validateFromService, hSv, Service.Validate, hsv0,
      validateFromHealthChecks, hHc, HealthChecks.Validate, hE]
  · intro h0 hSok hLok hDok hSvok hHcok
    have h01 := (checkConfig_eq_none_iff conf).mp h0
    obtain ⟨s, hS⟩ := Option.ne_none_iff_exists'.mp h01.1
    obtain ⟨l, hL⟩ := Option.ne_none_iff_exists'.mp h01.2.1
    obtain ⟨d, hD⟩ := Option.ne_none_iff_exists'.mp h01.2.2.1
    obtain ⟨sv, hSv⟩ := Option.ne_none_iff_exists'.mp h01.2.2.2.1
    obtain ⟨hc, hHc⟩ := Option.ne_none_iff_exists'.mp h01.2.2.2.2
    have hs0 := hSok s hS
    have hl0 := hLok l hL
    have hd0 := hDok d hD
    have hsv0 := hSvok sv hSv
    have hhc0 := hHcok hc hHc
    simp only [Validate, h0, hS, Server.Validate, hs0,
      validateFromLogging, hL, Logging.Validate, hl0,
      validateFromDatabase, hD, Database.Validate, hd0,
      validateFromService, hSv, Service.Validate, hsv0,
      validateFromHealthChecks, hHc, HealthChecks.Validate, hhc0]

/-- Closed instantiation of `validate_first_error_in_order`: the
structural check passes, the `Server` section fails on its empty host,
and that error is the overall result. -/
theorem validate_first_error_in_order_witness :
    Validate (Config.mk (some ⟨"", 8080, 5, 10, 60, 20⟩) (some ⟨"info", ["stdout"]⟩)
        (some ⟨"localhost", 5432, "postgres", "", "app", "disable", 10, 5, 300, 60⟩)
        (some ⟨"svc", "1.0.0", "PRODUCTION"⟩)
        (some ⟨true, ["database"], 1000000000, 1000000000⟩))
      = some ⟨"Host", Rule.required⟩ :=
  (validate_first_error_in_order _).2.1 ⟨"", 8080, 5, 10, 60, 20⟩ ⟨"Host", Rule.required⟩
    (by decide) (by decide) (by decide)

/-- C3 counterexample: a `Config` whose `Database` section is `nil`
need not produce an error naming the Database section — when `Server`
is also `nil`, the returned error names `Server`. -/
theorem validate_nil_database_counterexample :
    (Config.mk none none none none none).Database = none
    ∧ Validate (Config.mk none none none none none) = some ⟨"Server", Rule.required⟩
    ∧ ("Server" : String) ≠ "Database" := by
  decide

/-- C3 (amended): a `Config` with any `nil` section fails `Validate`;
and a `Config` whose `Database` section is `nil` while the
earlier-checked `Server` and `Logging` sections are present makes
`Validate` return an error naming the `Database` section. -/
theorem validate_nil_section_error :
    ∀ conf : Config,
      ((conf.Server = none ∨ conf.Logging = none ∨ conf.Database = none ∨
          conf.Service = none ∨ conf.HealthChecks = none) →
        ∃ e, Validate conf = some e)
      ∧ (conf.Database = none → conf.Server ≠ none → conf.Logging ≠ none →
          Validate conf = some ⟨"Database", Rule.required⟩) := by
  intro conf
  constructor
  · exact nilSection_validate_some conf
  · intro hD hS hL
    have hcc : checkConfig conf = some ⟨"Database", Rule.required⟩ := by
      unfold checkConfig
      rw [if_neg hS, if_neg hL, if_pos hD]
    simp only [Validate, hcc]

/-- Closed instantiation of `validate_nil_section_error`: only the
database section is missing, and the error names it. -/
theorem validate_nil_section_error_witness :
    Validate (Config.mk (some ⟨"0.0.0.0", 8080, 5, 10, 60, 20⟩)
        (some ⟨"info", ["stdout"]⟩) none none none)
      = some ⟨"Database", Rule.required⟩ :=
  (validate_nil_section_error _).2 (by decide) (by decide) (by decide)

/-- The state-passing health-checks tail returns its state unchanged
and agrees with the plain result. -/
lemma validateStFromHealthChecks_eq (conf : Config) :
    validateStFromHealthChecks conf = (conf, validateFromHealthChecks conf) := by
  obtain ⟨se, lo, db, sv, hc⟩ := conf
  cases hc with
  | none => rfl
  | some h1 =>
    cases h2 : checkHealthChecks h1 <;>
      simp [validateStFromHealthChecks, validateFromHealthChecks,
        HealthChecks.validateSt, HealthChecks.Validate, h2]

/-- The state-passing service tail returns its state unchanged. -/
lemma validateStFromService_eq (conf : Config) :
    validateStFromService conf = (conf, validateFromService conf) := by
  obtain ⟨se, lo, db, sv, hc⟩ := conf
  cases sv with
  | none =>
    simp [validateStFromService, validateFromService, validateStFromHealthChecks_eq]
  | some s1 =>
    cases h2 : checkService s1 <;>
      simp [validateStFromService, validateFromService, Service.validateSt,
        Service.Validate, h2, validateStFromHealthChecks_eq]

/-- The state-passing database tail returns its state unchanged. -/
lemma validateStFromDatabase_eq (conf : Config) :
    validateStFromDatabase conf = (conf, validateFromDatabase conf) := by
  obtain ⟨se, lo, db, sv, hc⟩ := conf
  cases db with
  | none =>
    simp [validateStFromDatabase, validateFromDatabase, validateStFromService_eq]
  | some d1 =>
    cases h2 : checkDatabase d1 <;>
      simp [validateStFromDatabase, validateFromDatabase, Database.validateSt,
        Database.Validate, h2, validateStFromService_eq]

/-- The state-passing logging tail returns its state unchanged. -/
lemma validateStFromLogging_eq (conf : Config) :
    validateStFromLogging conf = (conf, validateFromLogging conf) := by
  obtain ⟨se, lo, db, sv, hc⟩ := conf
  cases lo with
  | none =>
    simp [validateStFromLogging, validateFromLogging, validateStFromDatabase_eq]
  | some l1 =>
    cases h2 : checkLogging l1 <;>
      simp [validateStFromLogging, validateFromLogging, Logging.validateSt,
        Logging.Validate, h2, validateStFromDatabase_eq]

/-- The state-passing `Validate` returns its `Config` unchanged and
agrees with the plain embedding. -/
lemma validateSt_eq (conf : Config) : ValidateSt conf = (conf, Validate conf) := by
  obtain ⟨se, lo, db, sv, hc⟩ := conf
  cases h0 : checkConfig ⟨se, lo, db, sv, hc⟩ with
  | some e => simp [ValidateSt, Validate, checkConfigSt, h0]
  | none =>
    cases se with
    | none =>
      simp [ValidateSt, Validate, checkConfigSt, h0, validateStFromLogging_eq]
    | some s1 =>
      cases h2 : checkServer s1 <;>
        simp [ValidateSt, Validate, checkConfigSt, Server.validateSt,
          Server.Validate, h0, h2, validateStFromLogging_eq]

/-- C9: `Validate` and the per-section `Validate` methods never modify
the value they examine: in the state-passing embedding, the `Config`
coming out of `ValidateSt` is the `Config` that went in, whether
validation succeeds or fails, and each section method returns its
receiver unchanged. -/
theorem validate_no_mutation :
    ∀ conf : Config,
      (ValidateSt conf).1 = conf
      ∧ ((ValidateSt conf).2 = Validate conf)
      ∧ (∀ s : Server, s.validateSt.1 = s)
      ∧ (∀ l : Logging, l.validateSt.1 = l)
      ∧ (∀ d : Database, d.validateSt.1 = d)
      ∧ (∀ sv : Service, sv.validateSt.1 = sv)
      ∧ (∀ hc : HealthChecks, hc.validateSt.1 = hc) := by
  intro conf
  refine ⟨by rw [validateSt_eq], by rw [validateSt_eq], fun _ => rfl, fun _ => rfl,
    fun _ => rfl, fun _ => rfl, fun _ => rfl⟩

/-- The deref-instrumented health-checks tail never faults. -/
lemma validateSafeFromHealthChecks_eq (conf : Config) :
    validateSafeFromHealthChecks conf = Except.ok (validateFromHealthChecks conf) := by
  cases hc : conf.HealthChecks with
  | none => simp [validateSafeFromHealthChecks, validateFromHealthChecks, hc]
  | some h1 =>
    cases h2 : checkHealthChecks h1 <;>
      simp [validateSafeFromHealthChecks, validateFromHealthChecks, hc, derefSection,
        HealthChecks.Validate, h2]

/-- The deref-instrumented service tail never faults. -/
lemma validateSafeFromService_eq (conf : Config) :
    validateSafeFromService conf = Except.ok (validateFromService conf) := by
  cases hsv : conf.Service with
  | none =>
    simp [validateSafeFromService, validateFromService, hsv, validateSafeFromHealthChecks_eq]
  | some s1 =>
    cases h2 : checkService s1 <;>
      simp [validateSafeFromService, validateFromService, hsv, derefSection,
        Service.Validate, h2, validateSafeFromHealthChecks_eq]

/-- The deref-instrumented database tail never faults. -/
lemma validateSafeFromDatabase_eq (conf : Config) :
    validateSafeFromDatabase conf = Except.ok (validateFromDatabase conf) := by
  cases hdb : conf.Database with
  | none =>
    simp [validateSafeFromDatabase, validateFromDatabase, hdb, validateSafeFromService_eq]
  | some d1 =>
    cases h2 : checkDatabase d1 <;>
      simp [validateSafeFromDatabase, validateFromDatabase, hdb, derefSection,
        Database.Validate, h2, validateSafeFromService_eq]

/-- The deref-instrumented logging tail never faults. -/
lemma validateSafeFromLogging_eq (conf : Config) :
    validateSafeFromLogging conf = Except.ok (validateFromLogging conf) := by
  cases hlo : conf.Logging with
  | none =>
    simp [validateSafeFromLogging, validateFromLogging, hlo, validateSafeFromDatabase_eq]
  | some l1 =>
    cases h2 : checkLogging l1 <;>
      simp [validateSafeFromLogging, validateFromLogging, hlo, derefSection,
        Logging.Validate, h2, validateSafeFromDatabase_eq]

/-- The deref-instrumented `Validate` never faults and agrees with the
plain embedding. -/
lemma validateSafe_eq (conf : Config) : ValidateSafe conf = Except.ok (Validate conf) := by
  cases h0 : checkConfig conf with
  | some e => simp [ValidateSafe, Validate, h0]
  | none =>
    cases hs : conf.Server with
    | none => simp [ValidateSafe, Validate, h0, hs, validateSafeFromLogging_eq]
    | some s1 =>
      cases h2 : checkServer s1 <;>
        simp [ValidateSafe, Validate, h0, hs, derefSection, Server.Validate, h2,
          validateSafeFromLogging_eq]

/-- C10: `Validate` is total and never dereferences a `nil` section
pointer: in the deref-instrumented embedding, every `Config` — in
particular one with `nil` sections — produces `Except.ok` (never the
nil-dereference fault), and a `Config` with a `nil` section yields an
ordinary validation error rather than a crash. -/
theorem validate_total_safe :
    ∀ conf : Config,
      ValidateSafe conf = Except.ok (Validate conf)
      ∧ ((conf.Server = none ∨ conf.Logging = none ∨ conf.Database = none ∨
          conf.Service = none ∨ conf.HealthChecks = none) →
        ∃ e, ValidateSafe conf = Except.ok (some e)) := by
  intro conf
  refine ⟨validateSafe_eq conf, ?_⟩
  intro h
  obtain ⟨e, he⟩ := nilSection_validate_some conf h
  exact ⟨e, by rw [validateSafe_eq, he]⟩

/-- Closed instantiation of `validate_total_safe` at the all-`nil`
`Config`. -/
theorem validate_total_safe_witness :
    ∃ e, ValidateSafe (Config.mk none none none none none) = Except.ok (some e) :=
  (validate_total_safe (Config.mk none none none none none)).2 (by decide)

/-- Every value of a nested-map level is a leaf string. -/
def flatVals (m : List (String × EnvVal)) : Prop :=
  ∀ p ∈ m, ∃ s, p.2 = EnvVal.str s

/-- Assigning a leaf preserves leaf-only levels. -/
lemma flatVals_setKV (k : String) (v : String) :
    ∀ m : List (String × EnvVal), flatVals m → flatVals (setKV m k (EnvVal.str v)) := by
  intro m
  induction m with
  | nil =>
    intro _ p hp
    simp only [setKV, List.mem_singleton] at hp
    exact ⟨v, by rw [hp]⟩
  | cons hd tl ih =>
    intro h p hp
    obtain ⟨k1, v1⟩ := hd
    simp only [setKV] at hp
    by_cases hk : k1 = k
    · rw [if_pos hk] at hp
      rcases List.mem_cons.mp hp with h1 | h2
      · exact ⟨v, by rw [h1]⟩
      · exact h p (List.mem_cons_of_mem _ h2)
    · rw [if_neg hk] at hp
      rcases List.mem_cons.mp hp with h1 | h2
      · exact h p (by rw [h1]; exact List.mem_cons_self _ _)
      · exact ih (fun q hq => h q (List.mem_cons_of_mem _ hq)) p h2

/-- When every loaded key splits into a single segment (no `.` in any
variable name), the unflattened map is a single level of leaves —
nesting never arises. -/
lemma flatVals_unflatten (flat : List (String × String))
    (hkeys : ∀ p ∈ flat, goSplit p.1 '.' = [p.1]) :
    flatVals (unflatten flat) := by
  suffices haux : ∀ (l : List (String × String)) (m : List (String × EnvVal)),
      (∀ p ∈ l, goSplit p.1 '.' = [p.1]) → flatVals m →
      flatVals (l.foldl (fun m0 kv => insertPath m0 (goSplit kv.1 '.') kv.2) m) by
    exact haux flat [] hkeys (by intro p hp; simp at hp)
  intro l
  induction l with
  | nil => intro m _ hm; exact hm
  | cons hd tl ih =>
    intro m hl hm
    simp only [List.foldl_cons]
    apply ih
    · intro p hp
      exact hl p (List.mem_cons_of_mem _ hp)
    · rw [hl hd (List.mem_cons_self _ _)]
      exact flatVals_setKV hd.1 hd.2 m hm

/-- Lookup in a leaf-only level yields nothing or a leaf. -/
lemma lookupKV_flat :
    ∀ m : List (String × EnvVal), flatVals m → ∀ k : String,
      lookupKV m k = none ∨ ∃ s, lookupKV m k = some (EnvVal.str s) := by
  intro m
  induction m with
  | nil => intro _ k; left; rfl
  | cons hd tl ih =>
    intro h k
    obtain ⟨k1, v1⟩ := hd
    simp only [lookupKV]
    by_cases hk : k1 = k
    · rw [if_pos hk]
      right
      obtain ⟨s, hs⟩ := h (k1, v1) (List.mem_cons_self _ _)
      simp only at hs
      exact ⟨s, by rw [hs]⟩
    · rw [if_neg hk]
      exact ih (fun q hq => h q (List.mem_cons_of_mem _ hq)) k

/-- With dot-free variable names, the loaded `Config` has a `nil`
`Server` section: the flat key level holds no `server` sub-map, so the
decoder leaves the pointer at its zero value (or fails outright on a
leaf of that name). -/
lemma loadFromEnv_flat_server {environ : List (String × String)} {conf : Config}
    (hkeys : ∀ p ∈ loadFlat environ, goSplit p.1 '.' = [p.1])
    (h : LoadFromEnv environ = some conf) : conf.Server = none := by
  have hm : flatVals (unflatten (loadFlat environ)) :=
    flatVals_unflatten (loadFlat environ) hkeys
  unfold LoadFromEnv at h
  unfold decodeConfig at h
  simp only [Option.bind_eq_bind, Option.bind_eq_some] at h
  obtain ⟨sv, h1, lo, h2, dbv, h3, svv, h4, hcv, h5, heq⟩ := h
  simp only [Option.some.injEq] at heq
  rcases lookupKV_flat (unflatten (loadFlat environ)) hm "server" with hs | ⟨s, hs⟩
  · have h0 : decodeSection (unflatten (loadFlat environ)) "server" decodeServer
        = some none := by
      simp [decodeSection, hs]
    rw [h0] at h1
    simp only [Option.some.injEq] at h1
    rw [← heq, ← h1]
  · have h0 : decodeSection (unflatten (loadFlat environ)) "server" decodeServer
        = none := by
      simp [decodeSection, hs, decodeServer]
    rw [h0] at h1
    exact absurd h1 (by simp)

/-- C1 fails on the code: under the code's key transform every loaded
variable name (dot-free, as environment variable names are) becomes a
single flat key such as `server_host`, never the nested `server` map
the `koanf` tags of `Config` require, so `LoadFromEnv` leaves every
section `nil` and `Validate` then reports the missing `Server`
section; in particular on a fully-specified environment (including
`BOILERPLATE_SERVER_PORT=8080`) load-then-validate errors instead of
yielding `Server.Port == 8080`. -/
theorem loadFromEnv_never_populates :
    (∀ (environ : List (String × String)) (conf : Config),
        (∀ p ∈ loadFlat environ, goSplit p.1 '.' = [p.1]) →
        LoadFromEnv environ = some conf →
        conf.Server = none ∧ Validate conf = some ⟨"Server", Rule.required⟩)
    ∧ LoadFromEnv demoEnviron = some (Config.mk none none none none none)
    ∧ Validate (Config.mk none none none none none)
        = some ⟨"Server", Rule.required⟩ := by
  refine ⟨?_, by decide, by decide⟩
  intro environ conf hkeys h
  have hS := loadFromEnv_flat_server hkeys h
  refine ⟨hS, ?_⟩
  have hcc : checkConfig conf = some ⟨"Server", Rule.required⟩ := by
    unfold checkConfig
    rw [if_pos hS]
  simp only [Validate, hcc]

/-- Closed instantiation of `loadFromEnv_never_populates` at the
fully-specified environment. -/
theorem loadFromEnv_never_populates_witness :
    (Config.mk none none none none none).Server = none
    ∧ Validate (Config.mk none none none none none)
        = some ⟨"Server", Rule.required⟩ :=
  loadFromEnv_never_populates.1 demoEnviron (Config.mk none none none none none)
    (by decide) (by decide)

end GoBoilerplate
